import Mathlib

/-!
Shallow embedding of `scripts/update_data.py`: a batch pipeline that reads a
project-tracking workbook (a risk register sheet and a technical-query sheet),
normalises cell values, and writes two JSON files.

Python strings are modelled as `List Char` (`PyStr`); raw spreadsheet cell
values as the tagged union `Val`; a workbook as a list of named sheets plus an
existence flag; the two output files as an explicit `FileSystem` record that
`main_run` threads through, so that the order of writes relative to failures
is visible.
-/

namespace UpdateData

/-- Python strings, modelled as lists of characters. -/
abbrev PyStr := List Char

/-- The default whitespace characters stripped by Python's `str.strip()`
(ASCII subset). -/
def isSpaceChar (c : Char) : Bool :=
  c = ' ' || c = '\t' || c = '\n' || c = '\r' || c = '\x0b' || c = '\x0c'

/-- Left part of `str.strip()`: drop leading whitespace. -/
def stripLeft (s : PyStr) : PyStr := s.dropWhile isSpaceChar

/-- Right part of `str.strip()`: drop trailing whitespace. -/
def stripRight : PyStr → PyStr
  | [] => []
  | c :: cs =>
    match stripRight cs with
    | [] => if isSpaceChar c then [] else [c]
    | r => c :: r

/-- Python `str.strip()` with no argument: remove leading and trailing
whitespace. -/
def pyStrip (s : PyStr) : PyStr := stripRight (stripLeft s)

/-- Python `str.lower()` on a single character (ASCII range, which is all the
pipeline's keyword tables use). -/
def lowerChar (c : Char) : Char :=
  if 'A' ≤ c ∧ c ≤ 'Z' then Char.ofNat (c.toNat + 32) else c

/-- The one-to-one branch of Python `str.upper()` on a character: ASCII
letters map to their uppercase form, characters outside this branch are
unchanged. -/
def upperChar (c : Char) : Char :=
  if 'a' ≤ c ∧ c ≤ 'z' then Char.ofNat (c.toNat - 32) else c

/-- Python `str.upper()` on one character. Upper-casing is string-valued:
besides the one-to-one mappings (`upperChar`), the Unicode special-casing
table contains length-changing expansions, modelled here by its plainest
entry, 'ß' → "SS". The pipeline's keyword tables and canonical outputs are
all ASCII, where no expansion exists. -/
def upperMap (c : Char) : PyStr :=
  if c = 'ß' then "SS".data else [upperChar c]

/-- Python `str.lower()`. -/
def pyLower (s : PyStr) : PyStr := s.map lowerChar

/-- `s[:1].upper() + s[1:].lower()`: the title-case fallback of
`normalise_rating`. Upper-casing the first character may expand it to
several characters. -/
def titleCase : PyStr → PyStr
  | [] => []
  | c :: cs => upperMap c ++ pyLower cs

/-- ASCII code points. -/
def isAsciiChar (c : Char) : Bool := c.toNat < 128

example : pyStrip "  red  ".data = "red".data := by decide
example : pyLower "HiGh".data = "high".data := by decide
example : titleCase "bLOCKED".data = "Blocked".data := by decide
example : stripRight "a ".data = "a".data := by decide

/-- A raw spreadsheet cell value as surfaced by `pandas.read_excel` with
`dtype=object`: Python `None`, a float NaN (a blank cell), a
`pandas.Timestamp` (carrying a calendar date, a time of day, and its Python
string representation), some other object with a `.date()` attribute (whose
call either yields a calendar date or raises), or any other value reduced to
its Python string representation (text and numbers). -/
inductive Val where
  | vNone : Val
  | vNan : Val
  | vTimestamp (y m d hh mi : Nat) (rep : PyStr) : Val
  | vDateObj (dres : Option (Nat × Nat × Nat)) (rep : PyStr) : Val
  | vStr (s : PyStr) : Val
deriving DecidableEq

/-- Python `str(val)`. For `Timestamp` and date-like objects the
representation is carried in the constructor. -/
def strRepr : Val → PyStr
  | .vNone => "None".data
  | .vNan => "nan".data
  | .vTimestamp _ _ _ _ _ rep => rep
  | .vDateObj _ rep => rep
  | .vStr s => s

/-- `pd.isna(val)`: true for `None` and NaN, false for strings, numbers
rendered as strings, timestamps and date-like objects. -/
def pd_isna : Val → Bool
  | .vNone => true
  | .vNan => true
  | _ => false

/-- `as_text` from the script: `""` for `None` and for NaN-equivalent values,
otherwise `str(val)` with no trimming. -/
def as_text (v : Val) : PyStr :=
  match v with
  | .vNone => []
  | .vNan => []
  | w => strRepr w

/-- Decimal digits of a natural number, via `Nat.repr`. -/
def natDigits (n : Nat) : PyStr := (Nat.repr n).data

/-- Zero-pad a digit string on the left to width `k`. -/
def padZero (k : Nat) (l : PyStr) : PyStr := List.replicate (k - l.length) '0' ++ l

/-- `datetime.date(y, m, d).isoformat()`: `YYYY-MM-DD` with zero padding. -/
def isoDate (y m d : Nat) : PyStr :=
  padZero 4 (natDigits y) ++ '-' :: padZero 2 (natDigits m) ++ '-' :: padZero 2 (natDigits d)

/-- `to_iso_date` from the script: `""` for `None`/NaN; the calendar date in
ISO form for a `Timestamp` (`val.date().isoformat()`) and for a date-like
object whose `.date()` call succeeds; otherwise — including a date-like
object whose `.date()` call raises — `as_text(val).strip()`. -/
def to_iso_date (v : Val) : PyStr :=
  match v with
  | .vNone => []
  | .vNan => []
  | .vTimestamp y m d _ _ _ => isoDate y m d
  | .vDateObj (some (y, m, d)) _ => isoDate y m d
  | w => pyStrip (as_text w)

example : to_iso_date (.vTimestamp 2024 3 5 13 45 "2024-03-05 13:45:00".data)
    = "2024-03-05".data := by decide

/-- The `{"red", "r", "high"}` table of `normalise_rating`. -/
def redWords : List PyStr := ["red", "r", "high"].map String.data

/-- The `{"amber", "orange", "a", "medium", "med"}` table. -/
def amberWords : List PyStr := ["amber", "orange", "a", "medium", "med"].map String.data

/-- The `{"green", "g", "low"}` table. -/
def greenWords : List PyStr := ["green", "g", "low"].map String.data

/-- `normalise_rating` from the script: trim the text form; empty → `""`;
otherwise match the lower-cased text against the three keyword tables; on no
match fall back to `s[:1].upper() + s[1:].lower()` of the trimmed text. -/
def normalise_rating (x : Val) : PyStr :=
  let s := pyStrip (as_text x)
  if s = [] then []
  else
    let s_low := pyLower s
    if s_low ∈ redWords then "Red".data
    else if s_low ∈ amberWords then "Amber".data
    else if s_low ∈ greenWords then "Green".data
    else titleCase s

example : normalise_rating (.vStr "HIGH".data) = "Red".data := by decide
example : normalise_rating (.vStr " Orange ".data) = "Amber".data := by decide
example : normalise_rating (.vStr "bLOCKED".data) = "Blocked".data := by decide
example : normalise_rating .vNone = [] := by decide
example : normalise_rating (.vStr "n/a".data) = "N/a".data := by decide

/-- Lexicographic comparison of Python strings (code-point order), used by
`sorted(...)` in the schema error messages. -/
def pyStrLe : PyStr → PyStr → Bool
  | [], _ => true
  | _ :: _, [] => false
  | x :: xs, y :: ys => if x < y then true else if y < x then false else pyStrLe xs ys

/-- Insert into a sorted list of strings. -/
def insertStr (x : PyStr) : List PyStr → List PyStr
  | [] => [x]
  | y :: ys => if pyStrLe x y then x :: y :: ys else y :: insertStr x ys

/-- Python `sorted(...)` on strings (insertion sort; stable, same multiset). -/
def sortStrs (l : List PyStr) : List PyStr := l.foldr insertStr []

/-- A sheet as loaded into a DataFrame with `dtype=object`: the column
headers, and the rows as cell lists aligned with the headers. -/
structure Sheet where
  cols : List PyStr
  rows : List (List Val)
deriving DecidableEq

/-- `row.get(name)`: the cell under column `name`, or `None` when the column
is absent from the row. -/
def rowGet (cols : List PyStr) (cells : List Val) (name : PyStr) : Val :=
  match (List.zip cols cells).find? (fun p => decide (p.1 = name)) with
  | some p => p.2
  | none => Val.vNone

/-- `DataFrame.dropna(how="all")` keeps a row iff some cell is not NA. -/
def dropna_all (rows : List (List Val)) : List (List Val) :=
  rows.filter (fun cells => cells.any (fun v => ! pd_isna v))

/-- The input workbook: whether the file exists at `SOURCE_XLSX`, and its
sheets in order, each with its name. -/
structure Workbook where
  fileExists : Bool
  sheets : List (PyStr × Sheet)
deriving DecidableEq

/-- `xls.sheet_names`. -/
def sheet_names (wb : Workbook) : List PyStr := wb.sheets.map Prod.fst

/-- `find_sheet_name` from the script: walk the candidates in order and
return the first that occurs among the workbook's sheet names (exact,
case-sensitive match); `None` when none does. -/
def find_sheet_name (wb : Workbook) : List PyStr → Option PyStr
  | [] => none
  | name :: rest =>
    if name ∈ sheet_names wb then some name else find_sheet_name wb rest

/-- `read_sheet_df` from the script: load the named sheet and apply
`dropna(how="all")`. (In `main` the name always comes from
`find_sheet_name`, so the lookup succeeds; a missing name yields an empty
frame.) -/
def read_sheet_df (wb : Workbook) (name : PyStr) : Sheet :=
  match wb.sheets.find? (fun p => decide (p.1 = name)) with
  | some p => { cols := p.2.cols, rows := dropna_all p.2.rows }
  | none => { cols := [], rows := [] }

/-- One item of `risks.json`, in the field order `build_risks` emits. -/
structure RiskRecord where
  id : PyStr
  description : PyStr
  status : PyStr
  rating : PyStr
  ownerRole : PyStr
  nextActionDate : PyStr
  lastUpdatedRow : PyStr
deriving DecidableEq

/-- One item of `tqs.json`. -/
structure TqRecord where
  id : PyStr
  title : PyStr
  status : PyStr
deriving DecidableEq

/-- The `ValueError` raised when required columns are missing: it names the
missing columns (`sorted(missing)`) and the columns actually found
(`list(df.columns)`). -/
structure SchemaErr where
  missing : List PyStr
  found : List PyStr
deriving DecidableEq

/-- The `expected` column set of `build_risks`. -/
def riskExpected : List PyStr :=
  ["risk_id", "title", "status", "rating", "due_date", "owner_role", "last_updated"].map
    String.data

/-- The `expected` column set of `build_tqs`. -/
def tqExpected : List PyStr := ["tq_id", "title", "status"].map String.data

/-- `expected - set(df.columns)`, as a list over the expected columns. -/
def missingCols (expected cols : List PyStr) : List PyStr :=
  expected.filter (fun c => decide (c ∉ cols))

/-- The per-row dict `build_risks` appends: each field extracted from the row
by column name and coerced. -/
def mapRiskRow (cols : List PyStr) (cells : List Val) : RiskRecord :=
  { id := pyStrip (as_text (rowGet cols cells "risk_id".data))
  , description := pyStrip (as_text (rowGet cols cells "title".data))
  , status := pyStrip (as_text (rowGet cols cells "status".data))
  , rating := normalise_rating (rowGet cols cells "rating".data)
  , ownerRole := pyStrip (as_text (rowGet cols cells "owner_role".data))
  , nextActionDate := to_iso_date (rowGet cols cells "due_date".data)
  , lastUpdatedRow := to_iso_date (rowGet cols cells "last_updated".data) }

/-- The row loop of `build_risks`: skip a row when both the trimmed
`risk_id` and the trimmed `title` are empty, otherwise append its record. -/
def buildRiskItems (cols : List PyStr) : List (List Val) → List RiskRecord
  | [] => []
  | cells :: rest =>
    let r := mapRiskRow cols cells
    if r.id = [] ∧ r.description = [] then buildRiskItems cols rest
    else r :: buildRiskItems cols rest

/-- `build_risks` from the script: schema check, then the row loop. -/
def build_risks (s : Sheet) : Except SchemaErr (List RiskRecord) :=
  let missing := missingCols riskExpected s.cols
  if missing = [] then .ok (buildRiskItems s.cols s.rows)
  else .error ⟨sortStrs missing, s.cols⟩

/-- The per-row dict `build_tqs` appends. -/
def mapTqRow (cols : List PyStr) (cells : List Val) : TqRecord :=
  { id := pyStrip (as_text (rowGet cols cells "tq_id".data))
  , title := pyStrip (as_text (rowGet cols cells "title".data))
  , status := pyStrip (as_text (rowGet cols cells "status".data)) }

/-- The row loop of `build_tqs`: skip a row when both the trimmed `tq_id`
and the trimmed `title` are empty. -/
def buildTqItems (cols : List PyStr) : List (List Val) → List TqRecord
  | [] => []
  | cells :: rest =>
    let r := mapTqRow cols cells
    if r.id = [] ∧ r.title = [] then buildTqItems cols rest
    else r :: buildTqItems cols rest

/-- `build_tqs` from the script. -/
def build_tqs (s : Sheet) : Except SchemaErr (List TqRecord) :=
  let missing := missingCols tqExpected s.cols
  if missing = [] then .ok (buildTqItems s.cols s.rows)
  else .error ⟨sortStrs missing, s.cols⟩

deriving instance DecidableEq for Except

/-- The failure modes of `main`: missing workbook (`FileNotFoundError`), no
candidate sheet present (`ValueError` carrying the candidates tried and the
sheet names found), or missing required columns. -/
inductive Err where
  | workbookNotFound : Err
  | sheetNotFound (tried found : List PyStr) : Err
  | schemaError (e : SchemaErr) : Err
deriving DecidableEq

/-- The payload `write_json` serialises: `{"lastUpdated": ..., "items": ...}`. -/
structure Payload (α : Type) where
  lastUpdated : PyStr
  items : List α
deriving DecidableEq

/-- The two destination files (`data/risks.json`, `data/tqs.json`); `none`
means the file does not exist yet. `write_json` fully overwrites. -/
structure FileSystem where
  risksFile : Option (Payload RiskRecord)
  tqsFile : Option (Payload TqRecord)
deriving DecidableEq

/-- `RISK_SHEET_CANDIDATES`. -/
def RISK_SHEET_CANDIDATES : List PyStr := ["Risks", "Risk"].map String.data

/-- `TQ_SHEET_CANDIDATES`. -/
def TQ_SHEET_CANDIDATES : List PyStr := ["TQs", "TQ", "Tqs"].map String.data

/-- `main` from the script, with the timestamp `now_awst` passed in and the
two destination files threaded explicitly: check the workbook exists, locate
and build the risks sheet, write `risks.json`, then locate and build the TQs
sheet and write `tqs.json`. An exception leaves the remaining writes
unperformed and returns the file state reached so far. -/
def main_run (wb : Workbook) (now : PyStr) (fs : FileSystem) :
    FileSystem × Except Err Unit :=
  if !wb.fileExists then (fs, .error .workbookNotFound)
  else
    match find_sheet_name wb RISK_SHEET_CANDIDATES with
    | none => (fs, .error (.sheetNotFound RISK_SHEET_CANDIDATES (sheet_names wb)))
    | some riskSheet =>
      match build_risks (read_sheet_df wb riskSheet) with
      | .error e => (fs, .error (.schemaError e))
      | .ok riskItems =>
        let fs1 : FileSystem := { fs with risksFile := some ⟨now, riskItems⟩ }
        match find_sheet_name wb TQ_SHEET_CANDIDATES with
        | none => (fs1, .error (.sheetNotFound TQ_SHEET_CANDIDATES (sheet_names wb)))
        | some tqSheet =>
          match build_tqs (read_sheet_df wb tqSheet) with
          | .error e => (fs1, .error (.schemaError e))
          | .ok tqItems => ({ fs1 with tqsFile := some ⟨now, tqItems⟩ }, .ok ())

/-! ### Concrete inputs used as witnesses and counterexamples -/

/-- A risks sheet with all required columns and one populated row (the
end-to-end example of the spec). -/
def egRiskSheet : Sheet :=
  { cols := ["risk_id", "title", "status", "rating", "due_date", "owner_role",
      "last_updated"].map String.data
  , rows := [[.vStr "R-1".data, .vStr "Vendor delay".data, .vStr "Open".data,
      .vStr "High".data, .vTimestamp 2024 6 1 0 0 "2024-06-01 00:00:00".data,
      .vStr "PM".data, .vTimestamp 2024 5 1 0 0 "2024-05-01 00:00:00".data]] }

/-- A risks sheet lacking the required `rating` column. -/
def egBadRiskSheet : Sheet :=
  { cols := ["risk_id", "title", "status", "due_date", "owner_role",
      "last_updated"].map String.data
  , rows := [] }

/-- A TQs sheet lacking the required `status` column. -/
def egBadTqSheet : Sheet :=
  { cols := ["tq_id", "title"].map String.data
  , rows := [[.vStr "TQ-1".data, .vStr "Spec query".data]] }

/-- A valid TQs sheet. -/
def egTqSheet : Sheet :=
  { cols := ["tq_id", "title", "status"].map String.data
  , rows := [[.vStr "TQ-1".data, .vStr "Spec query".data, .vStr "Open".data]] }

/-- A workbook whose risks sheet is valid but whose TQs sheet has a missing
required column. -/
def egBadTqWorkbook : Workbook :=
  { fileExists := true
  , sheets := [("Risks".data, egRiskSheet), ("TQs".data, egBadTqSheet)] }

/-- A fully valid workbook. -/
def egGoodWorkbook : Workbook :=
  { fileExists := true
  , sheets := [("Risks".data, egRiskSheet), ("TQs".data, egTqSheet)] }

/-- A workbook whose risks sheet lacks the `rating` column. -/
def egBadRiskWorkbook : Workbook :=
  { fileExists := true
  , sheets := [("Risks".data, egBadRiskSheet), ("TQs".data, egTqSheet)] }

/-- A workbook with no sheet matching any risk-sheet candidate name. -/
def egNoRiskWorkbook : Workbook :=
  { fileExists := true
  , sheets := [("Notes".data, egTqSheet), ("TQs".data, egTqSheet)] }

/-- A workbook whose only risk sheet uses the second alias, `Risk`. -/
def egRiskAliasWorkbook : Workbook :=
  { fileExists := true
  , sheets := [("Risk".data, egRiskSheet), ("TQs".data, egTqSheet)] }

/-- A row (aligned with `egRiskSheet.cols`) whose `risk_id` and `title` are
both empty, all other cells populated. -/
def egRowBlankIds : List Val :=
  [.vStr [], .vStr [], .vStr "Open".data, .vStr "High".data,
   .vStr "2024-06-01".data, .vStr "PM".data, .vStr "2024-05-01".data]

/-- A row (aligned with `egRiskSheet.cols`) with `risk_id` `"R-1"` and an
empty `title`, all other cells populated. -/
def egRowIdOnly : List Val :=
  [.vStr "R-1".data, .vStr [], .vStr "Open".data, .vStr "High".data,
   .vStr "2024-06-01".data, .vStr "PM".data, .vStr "2024-05-01".data]

/-- A fully-blank row: every cell missing (NaN/None). -/
def egRowAllNa : List Val :=
  [.vNan, .vNone, .vNan, .vNan, .vNan, .vNan, .vNan]

/-- Pre-existing contents of the two destination files before a run. -/
def egPriorFs : FileSystem :=
  { risksFile := some ⟨"2024-01-01 00:00 AWST".data, []⟩
  , tqsFile := some ⟨"2024-01-01 00:00 AWST".data, []⟩ }

/-! ### Character- and string-level lemmas -/

lemma char_le_iff (c d : Char) : c ≤ d ↔ c.toNat ≤ d.toNat := Iff.rfl

lemma toNat_ofNat_valid (n : Nat) (h : n < 0xd800) : (Char.ofNat n).toNat = n := by
  unfold Char.ofNat
  split
  · rfl
  · exact absurd (Or.inl h) (by assumption)

lemma char_eq_iff (c d : Char) : c = d ↔ c.toNat = d.toNat := by
  constructor
  · intro h; rw [h]
  · intro h
    exact Char.eq_of_val_eq (UInt32.eq_of_toBitVec_eq (BitVec.toNat_injective h))

lemma lowerChar_toNat (c : Char) :
    (lowerChar c).toNat = if 65 ≤ c.toNat ∧ c.toNat ≤ 90 then c.toNat + 32 else c.toNat := by
  unfold lowerChar
  by_cases h : 'A' ≤ c ∧ c ≤ 'Z'
  · have h1 : 65 ≤ c.toNat := (char_le_iff _ _).mp h.1
    have h2 : c.toNat ≤ 90 := (char_le_iff _ _).mp h.2
    rw [if_pos h, if_pos ⟨h1, h2⟩, toNat_ofNat_valid _ (by omega)]
  · rw [if_neg h, if_neg]
    intro hc
    exact h ⟨(char_le_iff _ _).mpr hc.1, (char_le_iff _ _).mpr hc.2⟩

lemma upperChar_toNat (c : Char) :
    (upperChar c).toNat = if 97 ≤ c.toNat ∧ c.toNat ≤ 122 then c.toNat - 32 else c.toNat := by
  unfold upperChar
  by_cases h : 'a' ≤ c ∧ c ≤ 'z'
  · have h1 : 97 ≤ c.toNat := (char_le_iff _ _).mp h.1
    have h2 : c.toNat ≤ 122 := (char_le_iff _ _).mp h.2
    rw [if_pos h, if_pos ⟨h1, h2⟩, toNat_ofNat_valid _ (by omega)]
  · rw [if_neg h, if_neg]
    intro hc
    exact h ⟨(char_le_iff _ _).mpr hc.1, (char_le_iff _ _).mpr hc.2⟩

lemma lowerChar_lowerChar (c : Char) : lowerChar (lowerChar c) = lowerChar c := by
  rw [char_eq_iff, lowerChar_toNat, lowerChar_toNat]
  split <;> (try split) <;> omega

lemma lowerChar_upperChar (c : Char) : lowerChar (upperChar c) = lowerChar c := by
  rw [char_eq_iff, lowerChar_toNat, upperChar_toNat, lowerChar_toNat]
  split <;> (try split) <;> (try split) <;> omega

lemma isSpaceChar_iff (c : Char) :
    isSpaceChar c = true ↔
      c.toNat = 32 ∨ c.toNat = 9 ∨ c.toNat = 10 ∨ c.toNat = 13 ∨
      c.toNat = 11 ∨ c.toNat = 12 := by
  have e1 : (' ' : Char).toNat = 32 := rfl
  have e2 : ('\t' : Char).toNat = 9 := rfl
  have e3 : ('\n' : Char).toNat = 10 := rfl
  have e4 : ('\r' : Char).toNat = 13 := rfl
  have e5 : ('\x0b' : Char).toNat = 11 := rfl
  have e6 : ('\x0c' : Char).toNat = 12 := rfl
  simp [isSpaceChar, char_eq_iff, e1, e2, e3, e4, e5, e6]
  tauto

lemma isSpaceChar_upperChar (c : Char) (h : isSpaceChar c = false) :
    isSpaceChar (upperChar c) = false := by
  rw [Bool.eq_false_iff]
  intro hs
  have hn := (isSpaceChar_iff _).mp hs
  have hc : ¬(c.toNat = 32 ∨ c.toNat = 9 ∨ c.toNat = 10 ∨ c.toNat = 13 ∨
      c.toNat = 11 ∨ c.toNat = 12) := by
    intro hx
    rw [(isSpaceChar_iff c).mpr hx] at h
    exact Bool.true_eq_false.mp h
  rw [upperChar_toNat] at hn
  split at hn
  · omega
  · exact hc hn

lemma isSpaceChar_lowerChar (c : Char) (h : isSpaceChar c = false) :
    isSpaceChar (lowerChar c) = false := by
  rw [Bool.eq_false_iff]
  intro hs
  have hn := (isSpaceChar_iff _).mp hs
  have hc : ¬(c.toNat = 32 ∨ c.toNat = 9 ∨ c.toNat = 10 ∨ c.toNat = 13 ∨
      c.toNat = 11 ∨ c.toNat = 12) := by
    intro hx
    rw [(isSpaceChar_iff c).mpr hx] at h
    exact Bool.true_eq_false.mp h
  rw [lowerChar_toNat] at hn
  split at hn
  · omega
  · exact hc hn

lemma upperChar_upperChar (c : Char) : upperChar (upperChar c) = upperChar c := by
  rw [char_eq_iff, upperChar_toNat, upperChar_toNat]
  split <;> (try split) <;> omega

lemma stripRight_head_cases (m : PyStr) :
    stripRight m = [] ∨ (stripRight m).head? = m.head? := by
  cases m with
  | nil => exact Or.inl rfl
  | cons c cs =>
    unfold stripRight
    cases hr : stripRight cs with
    | nil =>
      by_cases hc : isSpaceChar c
      · simp [hc]
      · simp [hc]
    | cons r rs => simp

lemma stripRight_getLast_not_space (m : PyStr) (x : Char)
    (h : (stripRight m).getLast? = some x) : isSpaceChar x = false := by
  induction m with
  | nil => simp [stripRight] at h
  | cons c cs ih =>
    unfold stripRight at h
    cases hr : stripRight cs with
    | nil =>
      rw [hr] at h
      by_cases hc : isSpaceChar c
      · simp [hc] at h
      · simp [hc] at h
        rw [← h]
        exact Bool.not_eq_true _ ▸ (by simpa using hc)
    | cons r rs =>
      rw [hr] at h
      simp only [List.getLast?_cons_cons] at h
      exact ih (hr ▸ h)

lemma stripLeft_eq_self (l : PyStr) (h : ∀ c ∈ l.head?, isSpaceChar c = false) :
    stripLeft l = l := by
  cases l with
  | nil => rfl
  | cons c cs =>
    have hc : isSpaceChar c = false := h c rfl
    simp [stripLeft, List.dropWhile_cons, hc]

lemma stripRight_eq_self (l : PyStr) (h : ∀ c ∈ l.getLast?, isSpaceChar c = false) :
    stripRight l = l := by
  induction l with
  | nil => rfl
  | cons c cs ih =>
    unfold stripRight
    cases hcs : cs with
    | nil =>
      have hc : isSpaceChar c = false := h c (by simp [hcs])
      subst hcs
      simp [stripRight, hc]
    | cons d ds =>
      rw [← hcs]
      have hrec : stripRight cs = cs := by
        apply ih
        intro x hx
        apply h
        rw [hcs] at hx ⊢
        simpa using hx
      rw [hrec, hcs]

lemma pyStrip_head_not_space (l : PyStr) (c : Char) (h : (pyStrip l).head? = some c) :
    isSpaceChar c = false := by
  unfold pyStrip at h
  rcases stripRight_head_cases (stripLeft l) with he | hh
  · rw [he] at h; simp at h
  · rw [hh] at h
    have := List.head?_dropWhile_not isSpaceChar l
    unfold stripLeft at h
    rw [h] at this
    exact this

lemma pyStrip_getLast_not_space (l : PyStr) (c : Char) (h : (pyStrip l).getLast? = some c) :
    isSpaceChar c = false := stripRight_getLast_not_space _ _ h

lemma pyStrip_eq_self (l : PyStr) (hh : ∀ c ∈ l.head?, isSpaceChar c = false)
    (hl : ∀ c ∈ l.getLast?, isSpaceChar c = false) : pyStrip l = l := by
  unfold pyStrip
  rw [stripLeft_eq_self l hh, stripRight_eq_self l hl]

lemma pyLower_pyLower (s : PyStr) : pyLower (pyLower s) = pyLower s := by
  unfold pyLower
  rw [List.map_map]
  exact List.map_congr_left (fun c _ => lowerChar_lowerChar c)

lemma isAsciiChar_iff (c : Char) : isAsciiChar c = true ↔ c.toNat < 128 := by
  unfold isAsciiChar
  exact decide_eq_true_iff

lemma ascii_upperMap (c : Char) (h : isAsciiChar c = true) :
    upperMap c = [upperChar c] := by
  unfold upperMap
  rw [if_neg]
  intro hc
  rw [hc] at h
  exact absurd h (by decide)

lemma isAsciiChar_upperChar (c : Char) (h : isAsciiChar c = true) :
    isAsciiChar (upperChar c) = true := by
  rw [isAsciiChar_iff] at h ⊢
  rw [upperChar_toNat]
  split <;> omega

lemma mem_stripRight : ∀ (l : PyStr) (x : Char), x ∈ stripRight l → x ∈ l
  | [], x => by simp [stripRight]
  | c :: cs, x => by
    unfold stripRight
    cases hr : stripRight cs with
    | nil =>
      by_cases hc : isSpaceChar c
      · simp [hc]
      · simp only [hc, Bool.false_eq_true, if_false, List.mem_singleton]
        intro hx
        rw [hx]
        exact List.mem_cons_self c cs
    | cons d ds =>
      intro hx
      rcases List.mem_cons.mp hx with hxc | hx2
      · rw [hxc]
        exact List.mem_cons_self c cs
      · exact List.mem_cons_of_mem c (mem_stripRight cs x (hr ▸ hx2))

lemma mem_pyStrip (l : PyStr) (x : Char) (h : x ∈ pyStrip l) : x ∈ l := by
  unfold pyStrip at h
  have h1 := mem_stripRight (stripLeft l) x h
  unfold stripLeft at h1
  exact (List.dropWhile_sublist isSpaceChar).mem h1

lemma all_ascii_pyStrip (l : PyStr) (h : l.all isAsciiChar = true) :
    (pyStrip l).all isAsciiChar = true := by
  rw [List.all_eq_true] at h ⊢
  intro x hx
  exact h x (mem_pyStrip l x hx)

lemma pyLower_titleCase_ascii (s : PyStr) (h : s.all isAsciiChar = true) :
    pyLower (titleCase s) = pyLower s := by
  cases s with
  | nil => rfl
  | cons c cs =>
    have hc : isAsciiChar c = true := by
      rw [List.all_cons, Bool.and_eq_true] at h
      exact h.1
    show pyLower (upperMap c ++ pyLower cs) = pyLower (c :: cs)
    rw [ascii_upperMap c hc, List.singleton_append]
    unfold pyLower
    simp only [List.map_cons, List.map_map]
    rw [lowerChar_upperChar]
    congr 1
    exact List.map_congr_left (fun d _ => lowerChar_lowerChar d)

lemma titleCase_titleCase_ascii (s : PyStr) (h : s.all isAsciiChar = true) :
    titleCase (titleCase s) = titleCase s := by
  cases s with
  | nil => rfl
  | cons c cs =>
    have hc : isAsciiChar c = true := by
      rw [List.all_cons, Bool.and_eq_true] at h
      exact h.1
    show titleCase (upperMap c ++ pyLower cs) = upperMap c ++ pyLower cs
    rw [ascii_upperMap c hc, List.singleton_append]
    show upperMap (upperChar c) ++ pyLower (pyLower cs) = upperChar c :: pyLower cs
    rw [ascii_upperMap _ (isAsciiChar_upperChar c hc), upperChar_upperChar,
      pyLower_pyLower, List.singleton_append]

lemma pyStrip_titleCase_pyStrip_ascii (l : PyStr) (hne : pyStrip l ≠ [])
    (hA : l.all isAsciiChar = true) :
    pyStrip (titleCase (pyStrip l)) = titleCase (pyStrip l) := by
  have hAs : (pyStrip l).all isAsciiChar = true := all_ascii_pyStrip l hA
  cases hs : pyStrip l with
  | nil => exact absurd hs hne
  | cons d ds =>
    have hd : isAsciiChar d = true := by
      rw [hs, List.all_cons, Bool.and_eq_true] at hAs
      exact hAs.1
    have htc : titleCase (d :: ds) = upperChar d :: pyLower ds := by
      show upperMap d ++ pyLower ds = _
      rw [ascii_upperMap d hd, List.singleton_append]
    rw [htc]
    apply pyStrip_eq_self
    · intro c hc
      simp only [List.head?_cons, Option.mem_def, Option.some.injEq] at hc
      have hdns : isSpaceChar d = false := pyStrip_head_not_space l d (by rw [hs]; rfl)
      rw [← hc]
      exact isSpaceChar_upperChar d hdns
    · intro c hc
      cases hds : ds with
      | nil =>
        subst hds
        simp only [pyLower, List.map_nil, List.getLast?_singleton,
          Option.mem_def, Option.some.injEq] at hc
        have hdns : isSpaceChar d = false :=
          pyStrip_head_not_space l d (by rw [hs]; rfl)
        rw [← hc]
        exact isSpaceChar_upperChar d hdns
      | cons e es =>
        subst hds
        have hlast : (upperChar d :: pyLower (e :: es)).getLast? =
            Option.map lowerChar ((e :: es).getLast?) := by
          show (upperChar d :: List.map lowerChar (e :: es)).getLast? = _
          rw [List.map_cons, List.getLast?_cons_cons, ← List.map_cons,
            List.getLast?_map]
        rw [hlast] at hc
        simp only [Option.mem_def, Option.map_eq_some'] at hc
        obtain ⟨a, ha, hac⟩ := hc
        have hlaststrip : (pyStrip l).getLast? = some a := by
          rw [hs, List.getLast?_cons_cons]
          exact ha
        have hans := pyStrip_getLast_not_space l a hlaststrip
        rw [← hac]
        exact isSpaceChar_lowerChar a hans

/-! ### Lemmas about the pipeline functions -/

lemma normalise_rating_eq (x : Val) :
    normalise_rating x =
      (if pyStrip (as_text x) = [] then []
       else if pyLower (pyStrip (as_text x)) ∈ redWords then "Red".data
       else if pyLower (pyStrip (as_text x)) ∈ amberWords then "Amber".data
       else if pyLower (pyStrip (as_text x)) ∈ greenWords then "Green".data
       else titleCase (pyStrip (as_text x))) := rfl

lemma red_amber_disjoint : ∀ w ∈ redWords, w ∉ amberWords := by decide

lemma red_green_disjoint : ∀ w ∈ redWords, w ∉ greenWords := by decide

lemma amber_green_disjoint : ∀ w ∈ amberWords, w ∉ greenWords := by decide

lemma nil_notin_words :
    [] ∉ redWords ∧ [] ∉ amberWords ∧ [] ∉ greenWords := by decide

lemma buildRiskItems_eq_filter (cols : List PyStr) :
    ∀ rows, buildRiskItems cols rows
      = (rows.map (mapRiskRow cols)).filter
          (fun r => !(decide (r.id = []) && decide (r.description = [])))
  | [] => rfl
  | cells :: rest => by
    unfold buildRiskItems
    rw [List.map_cons]
    by_cases h : (mapRiskRow cols cells).id = []
        ∧ (mapRiskRow cols cells).description = []
    · rw [if_pos h, buildRiskItems_eq_filter cols rest,
        List.filter_cons_of_neg (by simp [h.1, h.2])]
    · rw [if_neg h, buildRiskItems_eq_filter cols rest,
        List.filter_cons_of_pos (by
          have h2 : ¬(mapRiskRow cols cells).id = []
              ∨ ¬(mapRiskRow cols cells).description = [] := by tauto
          simpa using h2)]

lemma buildTqItems_eq_filter (cols : List PyStr) :
    ∀ rows, buildTqItems cols rows
      = (rows.map (mapTqRow cols)).filter
          (fun r => !(decide (r.id = []) && decide (r.title = [])))
  | [] => rfl
  | cells :: rest => by
    unfold buildTqItems
    rw [List.map_cons]
    by_cases h : (mapTqRow cols cells).id = [] ∧ (mapTqRow cols cells).title = []
    · rw [if_pos h, buildTqItems_eq_filter cols rest,
        List.filter_cons_of_neg (by simp [h.1, h.2])]
    · rw [if_neg h, buildTqItems_eq_filter cols rest,
        List.filter_cons_of_pos (by
          have h2 : ¬(mapTqRow cols cells).id = []
              ∨ ¬(mapTqRow cols cells).title = [] := by tauto
          simpa using h2)]

lemma find_sheet_name_eq_find (wb : Workbook) :
    ∀ cands, find_sheet_name wb cands
      = cands.find? (fun n => decide (n ∈ sheet_names wb))
  | [] => rfl
  | c :: cs => by
    unfold find_sheet_name
    by_cases h : c ∈ sheet_names wb
    · rw [if_pos h, List.find?_cons_of_pos _ (by simpa using h)]
    · rw [if_neg h, List.find?_cons_of_neg _ (by simpa using h),
        find_sheet_name_eq_find wb cs]

lemma find_sheet_name_first (wb : Workbook) :
    ∀ cands n, find_sheet_name wb cands = some n →
      ∃ k, ∃ hk : k < cands.length,
        cands.get ⟨k, hk⟩ = n ∧ n ∈ sheet_names wb ∧
        ∀ m ∈ cands.take k, m ∉ sheet_names wb
  | [], n => by
    intro h
    simp [find_sheet_name] at h
  | c :: cs, n => by
    intro h
    unfold find_sheet_name at h
    by_cases hc : c ∈ sheet_names wb
    · rw [if_pos hc] at h
      refine ⟨0, by simp, by simpa using Option.some.inj h, ?_, by simp⟩
      rw [← Option.some.inj h]
      exact hc
    · rw [if_neg hc] at h
      obtain ⟨k, hk, hget, hmem, htake⟩ := find_sheet_name_first wb cs n h
      refine ⟨k + 1, by simpa using hk, by simpa using hget, hmem, ?_⟩
      intro m hm
      rw [List.take_succ_cons] at hm
      rcases List.mem_cons.mp hm with hmc | hmt
      · rw [hmc]
        exact hc
      · exact htake m hmt

lemma main_run_no_workbook (wb : Workbook) (now : PyStr) (fs : FileSystem)
    (hex : wb.fileExists = false) :
    main_run wb now fs = (fs, .error .workbookNotFound) := by
  simp [main_run, hex]

lemma main_run_no_risk_sheet (wb : Workbook) (now : PyStr) (fs : FileSystem)
    (hex : wb.fileExists = true)
    (hrf : find_sheet_name wb RISK_SHEET_CANDIDATES = none) :
    main_run wb now fs
      = (fs, .error (.sheetNotFound RISK_SHEET_CANDIDATES (sheet_names wb))) := by
  simp [main_run, hex, hrf]

lemma main_run_risk_schema_fail (wb : Workbook) (now : PyStr) (fs : FileSystem)
    (rs : PyStr) (e : SchemaErr) (hex : wb.fileExists = true)
    (hrf : find_sheet_name wb RISK_SHEET_CANDIDATES = some rs)
    (hbr : build_risks (read_sheet_df wb rs) = .error e) :
    main_run wb now fs = (fs, .error (.schemaError e)) := by
  simp [main_run, hex, hrf, hbr]

lemma main_run_no_tq_sheet (wb : Workbook) (now : PyStr) (fs : FileSystem)
    (rs : PyStr) (ri : List RiskRecord) (hex : wb.fileExists = true)
    (hrf : find_sheet_name wb RISK_SHEET_CANDIDATES = some rs)
    (hbr : build_risks (read_sheet_df wb rs) = .ok ri)
    (htf : find_sheet_name wb TQ_SHEET_CANDIDATES = none) :
    main_run wb now fs
      = ({ fs with risksFile := some ⟨now, ri⟩ },
         .error (.sheetNotFound TQ_SHEET_CANDIDATES (sheet_names wb))) := by
  simp [main_run, hex, hrf, hbr, htf]

lemma main_run_tq_schema_fail (wb : Workbook) (now : PyStr) (fs : FileSystem)
    (rs ts : PyStr) (ri : List RiskRecord) (e : SchemaErr)
    (hex : wb.fileExists = true)
    (hrf : find_sheet_name wb RISK_SHEET_CANDIDATES = some rs)
    (hbr : build_risks (read_sheet_df wb rs) = .ok ri)
    (htf : find_sheet_name wb TQ_SHEET_CANDIDATES = some ts)
    (hbt : build_tqs (read_sheet_df wb ts) = .error e) :
    main_run wb now fs
      = ({ fs with risksFile := some ⟨now, ri⟩ }, .error (.schemaError e)) := by
  simp [main_run, hex, hrf, hbr, htf, hbt]

lemma main_run_success (wb : Workbook) (now : PyStr) (fs : FileSystem)
    (rs ts : PyStr) (ri : List RiskRecord) (ti : List TqRecord)
    (hex : wb.fileExists = true)
    (hrf : find_sheet_name wb RISK_SHEET_CANDIDATES = some rs)
    (hbr : build_risks (read_sheet_df wb rs) = .ok ri)
    (htf : find_sheet_name wb TQ_SHEET_CANDIDATES = some ts)
    (hbt : build_tqs (read_sheet_df wb ts) = .ok ti) :
    main_run wb now fs
      = (⟨some ⟨now, ri⟩, some ⟨now, ti⟩⟩, .ok ()) := by
  simp [main_run, hex, hrf, hbr, htf, hbt]

/-! ### Claims -/

/-- C2: `normalise_rating` returns `""` when the input is empty or blank
after trimming; `"Red"` when the trimmed input case-insensitively equals one
of red/r/high, `"Amber"` for amber/orange/a/medium/med, `"Green"` for
green/g/low; and otherwise the title case (first character upper-cased,
remainder lower-cased) of the original trimmed text. It is a total function
(it never raises). -/
theorem claim_C2_normalise_rating (x : Val) :
    (pyStrip (as_text x) = [] → normalise_rating x = []) ∧
    (pyLower (pyStrip (as_text x)) ∈ redWords → normalise_rating x = "Red".data) ∧
    (pyLower (pyStrip (as_text x)) ∈ amberWords → normalise_rating x = "Amber".data) ∧
    (pyLower (pyStrip (as_text x)) ∈ greenWords → normalise_rating x = "Green".data) ∧
    (pyStrip (as_text x) ≠ [] →
      pyLower (pyStrip (as_text x)) ∉ redWords →
      pyLower (pyStrip (as_text x)) ∉ amberWords →
      pyLower (pyStrip (as_text x)) ∉ greenWords →
      normalise_rating x = titleCase (pyStrip (as_text x))) := by
  have hchar := normalise_rating_eq x
  refine ⟨?_, ?_, ?_, ?_, ?_⟩
  · intro h
    rw [hchar, if_pos h]
  · intro h
    have hne : pyStrip (as_text x) ≠ [] := by
      intro h0
      rw [h0] at h
      exact nil_notin_words.1 h
    rw [hchar, if_neg hne, if_pos h]
  · intro h
    have hne : pyStrip (as_text x) ≠ [] := by
      intro h0
      rw [h0] at h
      exact nil_notin_words.2.1 h
    have hr : pyLower (pyStrip (as_text x)) ∉ redWords :=
      fun hr => red_amber_disjoint _ hr h
    rw [hchar, if_neg hne, if_neg hr, if_pos h]
  · intro h
    have hne : pyStrip (as_text x) ≠ [] := by
      intro h0
      rw [h0] at h
      exact nil_notin_words.2.2 h
    have hr : pyLower (pyStrip (as_text x)) ∉ redWords :=
      fun hr => red_green_disjoint _ hr h
    have ha : pyLower (pyStrip (as_text x)) ∉ amberWords :=
      fun ha => amber_green_disjoint _ ha h
    rw [hchar, if_neg hne, if_neg hr, if_neg ha, if_pos h]
  · intro hne hr ha hg
    rw [hchar, if_neg hne, if_neg hr, if_neg ha, if_neg hg]

/-- Witness for C2 at concrete inputs: `" RED "` classifies as `"Red"` and
`"bLOCKED"` falls back to the title case `"Blocked"`. -/
theorem claim_C2_witness :
    normalise_rating (.vStr " RED ".data) = "Red".data ∧
    normalise_rating (.vStr "bLOCKED".data) = "Blocked".data := by
  constructor
  · exact (claim_C2_normalise_rating (.vStr " RED ".data)).2.1 (by decide)
  · exact ((claim_C2_normalise_rating (.vStr "bLOCKED".data)).2.2.2.2
      (by decide) (by decide) (by decide) (by decide)).trans (by decide)

/-- C10 counterexample: `normalise_rating` is not idempotent for every
input. Python upper-casing expands 'ß' to "SS", so the title-case fallback
sends "ßx" to "SSx"; feeding that back in title-cases again to "Ssx", a
different string. -/
theorem claim_C10_counterexample :
    normalise_rating (.vStr "ßx".data) = "SSx".data ∧
    normalise_rating (.vStr (normalise_rating (.vStr "ßx".data))) = "Ssx".data ∧
    normalise_rating (.vStr (normalise_rating (.vStr "ßx".data)))
      ≠ normalise_rating (.vStr "ßx".data) :=
  ⟨by decide, by decide, by decide⟩

/-- C10 (amended): `normalise_rating` is idempotent on every input whose
text form is ASCII — there upper-casing is one-to-one, and each output
(`""`, `"Red"`, `"Amber"`, `"Green"`, or the title-cased fallback) is a
fixed point. Idempotence fails in general only through the length-changing
Unicode upper-case expansions exercised by the counterexample. -/
theorem claim_C10_idempotent_on_ascii (x : Val)
    (hA : (as_text x).all isAsciiChar = true) :
    normalise_rating (.vStr (normalise_rating x)) = normalise_rating x := by
  have hchar := normalise_rating_eq x
  have hAs : (pyStrip (as_text x)).all isAsciiChar = true :=
    all_ascii_pyStrip (as_text x) hA
  by_cases h0 : pyStrip (as_text x) = []
  · rw [hchar, if_pos h0]
    decide
  · by_cases hr : pyLower (pyStrip (as_text x)) ∈ redWords
    · rw [hchar, if_neg h0, if_pos hr]
      decide
    · by_cases ha : pyLower (pyStrip (as_text x)) ∈ amberWords
      · rw [hchar, if_neg h0, if_neg hr, if_pos ha]
        decide
      · by_cases hg : pyLower (pyStrip (as_text x)) ∈ greenWords
        · rw [hchar, if_neg h0, if_neg hr, if_neg ha, if_pos hg]
          decide
        · rw [hchar, if_neg h0, if_neg hr, if_neg ha, if_neg hg]
          have hat : as_text (.vStr (titleCase (pyStrip (as_text x))))
              = titleCase (pyStrip (as_text x)) := rfl
          have ht : pyStrip (titleCase (pyStrip (as_text x)))
              = titleCase (pyStrip (as_text x)) :=
            pyStrip_titleCase_pyStrip_ascii (as_text x) h0 hA
          have htne : titleCase (pyStrip (as_text x)) ≠ [] := by
            cases hs : pyStrip (as_text x) with
            | nil => exact absurd hs h0
            | cons c cs =>
              have hc : isAsciiChar c = true := by
                rw [hs, List.all_cons, Bool.and_eq_true] at hAs
                exact hAs.1
              show upperMap c ++ pyLower cs ≠ []
              rw [ascii_upperMap c hc, List.singleton_append]
              simp
          rw [normalise_rating_eq, hat, ht, if_neg htne,
            pyLower_titleCase_ascii _ hAs, if_neg hr, if_neg ha, if_neg hg,
            titleCase_titleCase_ascii _ hAs]

/-- Witness for C10 (amended): the ASCII input "bLOCKED" satisfies the
hypothesis, and re-normalising its normalisation returns it unchanged. -/
theorem claim_C10_witness :
    (as_text (.vStr "bLOCKED".data)).all isAsciiChar = true ∧
    normalise_rating (.vStr (normalise_rating (.vStr "bLOCKED".data)))
      = normalise_rating (.vStr "bLOCKED".data) :=
  ⟨by decide, claim_C10_idempotent_on_ascii (.vStr "bLOCKED".data) (by decide)⟩

/-- C3: `to_iso_date` returns `""` for missing/null values; for a value with
date semantics (a `Timestamp` or an object whose `.date()` call succeeds) it
returns the calendar date as `YYYY-MM-DD`, discarding the time-of-day
component; for every other value — including a date-like object whose
coercion fails — it returns `as_text(value)` trimmed. It is a total function
(it never raises). -/
theorem claim_C3_to_iso_date :
    (to_iso_date .vNone = [] ∧ to_iso_date .vNan = []) ∧
    (∀ y m d hh mi rep, to_iso_date (.vTimestamp y m d hh mi rep) = isoDate y m d) ∧
    (∀ y m d rep, to_iso_date (.vDateObj (some (y, m, d)) rep) = isoDate y m d) ∧
    (∀ rep, to_iso_date (.vDateObj none rep)
      = pyStrip (as_text (.vDateObj none rep))) ∧
    (∀ s, to_iso_date (.vStr s) = pyStrip (as_text (.vStr s))) ∧
    (∀ hh mi rep, to_iso_date (.vTimestamp 2024 3 5 hh mi rep) = "2024-03-05".data) :=
  ⟨⟨rfl, rfl⟩, fun _ _ _ _ _ _ => rfl, fun _ _ _ _ => rfl, fun _ => rfl,
    fun _ => rfl, fun _ _ _ => (by decide : isoDate 2024 3 5 = "2024-03-05".data)⟩

/-- C4: `as_text` returns `""` for blank/null/NaN-equivalent cell values (and
`to_iso_date` also returns `""` there); for every other value it returns the
value's string representation with no trimming applied. -/
theorem claim_C4_as_text :
    (as_text .vNone = [] ∧ as_text .vNan = [] ∧
      to_iso_date .vNone = [] ∧ to_iso_date .vNan = []) ∧
    (∀ v, pd_isna v = false → as_text v = strRepr v) := by
  refine ⟨⟨rfl, rfl, rfl, rfl⟩, ?_⟩
  intro v h
  cases v <;> first | rfl | simp [pd_isna] at h

/-- Witness for C4 at a concrete non-NA value: the string `" x "` is
returned verbatim, untrimmed. -/
theorem claim_C4_witness :
    pd_isna (Val.vStr " x ".data) = false ∧
    as_text (Val.vStr " x ".data) = strRepr (Val.vStr " x ".data) :=
  ⟨by decide, claim_C4_as_text.2 (Val.vStr " x ".data) (by decide)⟩

/-- C5: `find_sheet_name` computes the first candidate (in candidate-list
order) that exists among the workbook's sheet names under exact,
case-sensitive match — any hit is a candidate at some index `k`, present
among the sheet names, with every earlier candidate absent; and when no
candidate matches, `main` signals the sheet-not-found error carrying the
candidate list and the workbook's actual sheet names. -/
theorem claim_C5_find_sheet_name (wb : Workbook) (cands : List PyStr)
    (now : PyStr) (fs : FileSystem) :
    find_sheet_name wb cands
      = cands.find? (fun n => decide (n ∈ sheet_names wb)) ∧
    (∀ n, find_sheet_name wb cands = some n →
      ∃ k, ∃ hk : k < cands.length,
        cands.get ⟨k, hk⟩ = n ∧ n ∈ sheet_names wb ∧
        ∀ m ∈ cands.take k, m ∉ sheet_names wb) ∧
    (wb.fileExists = true →
      find_sheet_name wb RISK_SHEET_CANDIDATES = none →
      (main_run wb now fs).2
        = .error (.sheetNotFound RISK_SHEET_CANDIDATES (sheet_names wb))) := by
  refine ⟨find_sheet_name_eq_find wb cands, find_sheet_name_first wb cands, ?_⟩
  intro hex hn
  simp [main_run, hex, hn]

/-- Witness for C5: on a workbook whose only risk sheet is the alias `Risk`,
the locator returns `Risk` (the spec's own example); on a workbook with no
matching sheet, the run fails with the sheet-not-found error carrying the
candidates tried and the names found. -/
theorem claim_C5_witness :
    find_sheet_name egRiskAliasWorkbook RISK_SHEET_CANDIDATES
      = RISK_SHEET_CANDIDATES.find?
          (fun n => decide (n ∈ sheet_names egRiskAliasWorkbook)) ∧
    (∃ k, ∃ hk : k < RISK_SHEET_CANDIDATES.length,
      RISK_SHEET_CANDIDATES.get ⟨k, hk⟩ = "Risk".data ∧
      "Risk".data ∈ sheet_names egRiskAliasWorkbook ∧
      ∀ m ∈ RISK_SHEET_CANDIDATES.take k, m ∉ sheet_names egRiskAliasWorkbook) ∧
    (main_run egNoRiskWorkbook "now".data egPriorFs).2
      = .error (.sheetNotFound RISK_SHEET_CANDIDATES
          (sheet_names egNoRiskWorkbook)) :=
  ⟨(claim_C5_find_sheet_name egRiskAliasWorkbook RISK_SHEET_CANDIDATES
      "now".data egPriorFs).1,
   (claim_C5_find_sheet_name egRiskAliasWorkbook RISK_SHEET_CANDIDATES
      "now".data egPriorFs).2.1 "Risk".data (by decide),
   (claim_C5_find_sheet_name egNoRiskWorkbook RISK_SHEET_CANDIDATES
      "now".data egPriorFs).2.2 (by decide) (by decide)⟩

/-- C6: both builders compute the set difference between the required
columns and the sheet's observed headers (`missingCols` membership is
exactly "required and not observed"), fail with the schema error if and only
if that difference is non-empty — the error naming the missing columns and
the columns actually found — and, when the difference is empty, succeed. -/
theorem claim_C6_schema_error (s : Sheet) :
    (∀ c, c ∈ missingCols riskExpected s.cols ↔ c ∈ riskExpected ∧ c ∉ s.cols) ∧
    (missingCols riskExpected s.cols ≠ [] →
      build_risks s
        = .error ⟨sortStrs (missingCols riskExpected s.cols), s.cols⟩) ∧
    (missingCols riskExpected s.cols = [] →
      build_risks s = .ok (buildRiskItems s.cols s.rows)) ∧
    (∀ e, build_risks s = .error e → missingCols riskExpected s.cols ≠ []) ∧
    (∀ c, c ∈ missingCols tqExpected s.cols ↔ c ∈ tqExpected ∧ c ∉ s.cols) ∧
    (missingCols tqExpected s.cols ≠ [] →
      build_tqs s = .error ⟨sortStrs (missingCols tqExpected s.cols), s.cols⟩) ∧
    (missingCols tqExpected s.cols = [] →
      build_tqs s = .ok (buildTqItems s.cols s.rows)) ∧
    (∀ e, build_tqs s = .error e → missingCols tqExpected s.cols ≠ []) := by
  refine ⟨?_, ?_, ?_, ?_, ?_, ?_, ?_, ?_⟩
  · intro c
    simp [missingCols, List.mem_filter]
  · intro h
    simp [build_risks, h]
  · intro h
    simp [build_risks, h]
  · intro e he hempty
    simp [build_risks, hempty] at he
  · intro c
    simp [missingCols, List.mem_filter]
  · intro h
    simp [build_tqs, h]
  · intro h
    simp [build_tqs, h]
  · intro e he hempty
    simp [build_tqs, hempty] at he

/-- Witness for C6: a risks sheet with no `rating` column fails with the
schema error naming exactly `rating` as missing; the fully-columned risks
sheet succeeds; a TQs sheet with no `status` column fails naming `status`. -/
theorem claim_C6_witness :
    (missingCols riskExpected egBadRiskSheet.cols ≠ [] ∧
      build_risks egBadRiskSheet
        = .error ⟨sortStrs (missingCols riskExpected egBadRiskSheet.cols),
            egBadRiskSheet.cols⟩) ∧
    sortStrs (missingCols riskExpected egBadRiskSheet.cols) = ["rating".data] ∧
    (missingCols riskExpected egRiskSheet.cols = [] ∧
      build_risks egRiskSheet
        = .ok (buildRiskItems egRiskSheet.cols egRiskSheet.rows)) ∧
    (missingCols tqExpected egBadTqSheet.cols ≠ [] ∧
      build_tqs egBadTqSheet
        = .error ⟨sortStrs (missingCols tqExpected egBadTqSheet.cols),
            egBadTqSheet.cols⟩) ∧
    sortStrs (missingCols tqExpected egBadTqSheet.cols) = ["status".data] :=
  ⟨⟨by decide, (claim_C6_schema_error egBadRiskSheet).2.1 (by decide)⟩,
   by decide,
   ⟨by decide, (claim_C6_schema_error egRiskSheet).2.2.1 (by decide)⟩,
   ⟨by decide, (claim_C6_schema_error egBadTqSheet).2.2.2.2.2.1 (by decide)⟩,
   by decide⟩

/-- C7: for both builders a record is emitted iff at least one of the mapped
id or title/description fields is non-empty after trimming — the row loops
equal a filter over the mapped records, the check reading the mapped fields;
a row whose mapped id and description are both empty is dropped, and a row
with a non-empty mapped id (or description) is kept. -/
theorem claim_C7_row_existence (cols : List PyStr) (rows : List (List Val))
    (cells : List Val) :
    buildRiskItems cols rows
      = (rows.map (mapRiskRow cols)).filter
          (fun r => !(decide (r.id = []) && decide (r.description = []))) ∧
    buildTqItems cols rows
      = (rows.map (mapTqRow cols)).filter
          (fun r => !(decide (r.id = []) && decide (r.title = []))) ∧
    ((mapRiskRow cols cells).id = [] ∧ (mapRiskRow cols cells).description = [] →
      ∀ rest, buildRiskItems cols (cells :: rest) = buildRiskItems cols rest) ∧
    ((mapRiskRow cols cells).id ≠ [] ∨ (mapRiskRow cols cells).description ≠ [] →
      ∀ rest, buildRiskItems cols (cells :: rest)
        = mapRiskRow cols cells :: buildRiskItems cols rest) := by
  refine ⟨buildRiskItems_eq_filter cols rows, buildTqItems_eq_filter cols rows,
    ?_, ?_⟩
  · intro h rest
    show (if (mapRiskRow cols cells).id = [] ∧ (mapRiskRow cols cells).description = []
        then buildRiskItems cols rest
        else mapRiskRow cols cells :: buildRiskItems cols rest)
      = buildRiskItems cols rest
    rw [if_pos h]
  · intro h rest
    show (if (mapRiskRow cols cells).id = [] ∧ (mapRiskRow cols cells).description = []
        then buildRiskItems cols rest
        else mapRiskRow cols cells :: buildRiskItems cols rest)
      = mapRiskRow cols cells :: buildRiskItems cols rest
    rw [if_neg (by tauto)]

/-- Witness for C7: on the risk columns, the row with blank `risk_id` and
`title` (all other cells populated) contributes nothing, while the row with
`risk_id` `"R-1"` and blank `title` contributes its record. -/
theorem claim_C7_witness :
    buildRiskItems egRiskSheet.cols [egRowBlankIds] = [] ∧
    buildRiskItems egRiskSheet.cols [egRowIdOnly]
      = [mapRiskRow egRiskSheet.cols egRowIdOnly] :=
  ⟨(claim_C7_row_existence egRiskSheet.cols [] egRowBlankIds).2.2.1
      (by decide) [],
   (claim_C7_row_existence egRiskSheet.cols [] egRowIdOnly).2.2.2
      (Or.inl (by decide)) []⟩

/-- C8: `dropna(how="all")` keeps a row iff it is an original row with at
least one non-missing cell (so every fully-blank row is dropped);
`read_sheet_df` applies this drop when loading the sheet, before the row
loops of the builders ever see the rows; hence every row reaching the row
mapper has some non-missing cell. -/
theorem claim_C8_blank_rows (wb : Workbook) (name : PyStr)
    (rows : List (List Val)) (cells : List Val) :
    (cells ∈ dropna_all rows ↔
      cells ∈ rows ∧ ∃ v ∈ cells, pd_isna v = false) ∧
    (∀ p, wb.sheets.find? (fun q => decide (q.1 = name)) = some p →
      (read_sheet_df wb name).rows = dropna_all p.2.rows) ∧
    (∀ cs ∈ (read_sheet_df wb name).rows, ∃ v ∈ cs, pd_isna v = false) := by
  refine ⟨?_, ?_, ?_⟩
  · simp [dropna_all, List.mem_filter, List.any_eq_true]
  · intro p hp
    simp [read_sheet_df, hp]
  · intro cs hmem
    rw [read_sheet_df] at hmem
    cases hf : wb.sheets.find? (fun q => decide (q.1 = name)) with
    | none =>
      rw [hf] at hmem
      simp at hmem
    | some p =>
      rw [hf] at hmem
      simp only [dropna_all, List.mem_filter, List.any_eq_true] at hmem
      obtain ⟨-, v, hv, hnv⟩ := hmem
      exact ⟨v, hv, by simpa using hnv⟩

/-- Witness for C8: loading the `Risks` sheet of the valid workbook applies
the drop to its rows, and a fully-NA row is removed while a populated row
survives. -/
theorem claim_C8_witness :
    (read_sheet_df egGoodWorkbook "Risks".data).rows
      = dropna_all egRiskSheet.rows ∧
    (egRowIdOnly ∈ dropna_all [egRowAllNa, egRowIdOnly] ↔
      egRowIdOnly ∈ [egRowAllNa, egRowIdOnly] ∧
      ∃ v ∈ egRowIdOnly, pd_isna v = false) ∧
    dropna_all [egRowAllNa, egRowIdOnly] = [egRowIdOnly] :=
  ⟨(claim_C8_blank_rows egGoodWorkbook "Risks".data [] []).2.1
      ("Risks".data, egRiskSheet) (by decide),
   (claim_C8_blank_rows egGoodWorkbook "Risks".data
      [egRowAllNa, egRowIdOnly] egRowIdOnly).1,
   by decide⟩

/-- C1 counterexample: on a workbook whose risks sheet is valid but whose
TQs sheet lacks a required column, the run fails with a schema error, yet the
risks destination file has already been overwritten — so it is not the case
that every schema-failing run leaves every destination file unchanged. -/
theorem claim_C1_counterexample :
    (∃ e, (main_run egBadTqWorkbook "now".data egPriorFs).2
      = .error (.schemaError e)) ∧
    (main_run egBadTqWorkbook "now".data egPriorFs).1.risksFile
      ≠ egPriorFs.risksFile :=
  ⟨⟨⟨["status".data], ["tq_id".data, "title".data]⟩, by decide⟩, by decide⟩

/-- C1 (amended): a failing run never writes the TQs destination file, and a
failure on the risks side — including a risks schema error — leaves both
destination files unchanged; only a failure after the risks write (a TQ
sheet-not-found or TQ schema error) leaves the risks file already
overwritten. -/
theorem claim_C1_no_partial_write (wb : Workbook) (now : PyStr)
    (fs : FileSystem) :
    (∀ e, (main_run wb now fs).2 = .error e →
      (main_run wb now fs).1.tqsFile = fs.tqsFile) ∧
    (∀ rs e, wb.fileExists = true →
      find_sheet_name wb RISK_SHEET_CANDIDATES = some rs →
      build_risks (read_sheet_df wb rs) = .error e →
      (main_run wb now fs).1 = fs) := by
  constructor
  · intro e he
    cases hex : wb.fileExists with
    | false =>
      rw [main_run_no_workbook wb now fs hex]
    | true =>
      cases hrf : find_sheet_name wb RISK_SHEET_CANDIDATES with
      | none =>
        rw [main_run_no_risk_sheet wb now fs hex hrf]
      | some rs =>
        cases hbr : build_risks (read_sheet_df wb rs) with
        | error e2 =>
          rw [main_run_risk_schema_fail wb now fs rs e2 hex hrf hbr]
        | ok ri =>
          cases htf : find_sheet_name wb TQ_SHEET_CANDIDATES with
          | none =>
            rw [main_run_no_tq_sheet wb now fs rs ri hex hrf hbr htf]
          | some ts =>
            cases hbt : build_tqs (read_sheet_df wb ts) with
            | error e2 =>
              rw [main_run_tq_schema_fail wb now fs rs ts ri e2 hex hrf hbr htf hbt]
            | ok ti =>
              rw [main_run_success wb now fs rs ts ri ti hex hrf hbr htf hbt] at he
              simp at he
  · intro rs e hex hrf hbr
    rw [main_run_risk_schema_fail wb now fs rs e hex hrf hbr]

/-- Witness for C1 (amended): the TQ-schema-failing run leaves the TQs file
untouched, and a run whose risks sheet lacks the `rating` column leaves both
files untouched. -/
theorem claim_C1_witness :
    (main_run egBadTqWorkbook "now".data egPriorFs).1.tqsFile
      = egPriorFs.tqsFile ∧
    (main_run egBadRiskWorkbook "now".data egPriorFs).1 = egPriorFs :=
  ⟨(claim_C1_no_partial_write egBadTqWorkbook "now".data egPriorFs).1
      (.schemaError ⟨["status".data], ["tq_id".data, "title".data]⟩) (by decide),
   (claim_C1_no_partial_write egBadRiskWorkbook "now".data egPriorFs).2
      "Risks".data ⟨["rating".data], egBadRiskSheet.cols⟩
      (by decide) (by decide) (by decide)⟩

/-- C9: the outcome of a run is a deterministic function of the workbook
alone — two runs on the same workbook with different timestamps and
different prior file states succeed or fail together, and on success write
identical items arrays to both destination files, only the `lastUpdated`
timestamp differing. -/
theorem claim_C9_deterministic_items (wb : Workbook) (t1 t2 : PyStr)
    (fs1 fs2 : FileSystem) :
    ((main_run wb t1 fs1).2 = .ok () ↔ (main_run wb t2 fs2).2 = .ok ()) ∧
    ((main_run wb t1 fs1).2 = .ok () →
      ∃ riskItems tqItems,
        (main_run wb t1 fs1).1.risksFile = some ⟨t1, riskItems⟩ ∧
        (main_run wb t2 fs2).1.risksFile = some ⟨t2, riskItems⟩ ∧
        (main_run wb t1 fs1).1.tqsFile = some ⟨t1, tqItems⟩ ∧
        (main_run wb t2 fs2).1.tqsFile = some ⟨t2, tqItems⟩) := by
  cases hex : wb.fileExists with
  | false =>
    refine ⟨?_, ?_⟩
    · rw [main_run_no_workbook wb t1 fs1 hex, main_run_no_workbook wb t2 fs2 hex]
    · intro he
      rw [main_run_no_workbook wb t1 fs1 hex] at he
      simp at he
  | true =>
    cases hrf : find_sheet_name wb RISK_SHEET_CANDIDATES with
    | none =>
      refine ⟨?_, ?_⟩
      · rw [main_run_no_risk_sheet wb t1 fs1 hex hrf,
          main_run_no_risk_sheet wb t2 fs2 hex hrf]
      · intro he
        rw [main_run_no_risk_sheet wb t1 fs1 hex hrf] at he
        simp at he
    | some rs =>
      cases hbr : build_risks (read_sheet_df wb rs) with
      | error e =>
        refine ⟨?_, ?_⟩
        · rw [main_run_risk_schema_fail wb t1 fs1 rs e hex hrf hbr,
            main_run_risk_schema_fail wb t2 fs2 rs e hex hrf hbr]
        · intro he
          rw [main_run_risk_schema_fail wb t1 fs1 rs e hex hrf hbr] at he
          simp at he
      | ok ri =>
        cases htf : find_sheet_name wb TQ_SHEET_CANDIDATES with
        | none =>
          refine ⟨?_, ?_⟩
          · rw [main_run_no_tq_sheet wb t1 fs1 rs ri hex hrf hbr htf,
              main_run_no_tq_sheet wb t2 fs2 rs ri hex hrf hbr htf]
          · intro he
            rw [main_run_no_tq_sheet wb t1 fs1 rs ri hex hrf hbr htf] at he
            simp at he
        | some ts =>
          cases hbt : build_tqs (read_sheet_df wb ts) with
          | error e =>
            refine ⟨?_, ?_⟩
            · rw [main_run_tq_schema_fail wb t1 fs1 rs ts ri e hex hrf hbr htf hbt,
                main_run_tq_schema_fail wb t2 fs2 rs ts ri e hex hrf hbr htf hbt]
            · intro he
              rw [main_run_tq_schema_fail wb t1 fs1 rs ts ri e hex hrf hbr htf hbt]
                at he
              simp at he
          | ok ti =>
            refine ⟨?_, fun _ => ⟨ri, ti, ?_, ?_, ?_, ?_⟩⟩
            · rw [main_run_success wb t1 fs1 rs ts ri ti hex hrf hbr htf hbt,
                main_run_success wb t2 fs2 rs ts ri ti hex hrf hbr htf hbt]
            · rw [main_run_success wb t1 fs1 rs ts ri ti hex hrf hbr htf hbt]
            · rw [main_run_success wb t2 fs2 rs ts ri ti hex hrf hbr htf hbt]
            · rw [main_run_success wb t1 fs1 rs ts ri ti hex hrf hbr htf hbt]
            · rw [main_run_success wb t2 fs2 rs ts ri ti hex hrf hbr htf hbt]

/-- Witness for C9: on the valid workbook, two runs with different
timestamps and different prior file states both succeed and agree on the
items written. -/
theorem claim_C9_witness :
    (main_run egGoodWorkbook "run-1".data egPriorFs).2 = .ok () ∧
    ∃ riskItems tqItems,
      (main_run egGoodWorkbook "run-1".data egPriorFs).1.risksFile
        = some ⟨"run-1".data, riskItems⟩ ∧
      (main_run egGoodWorkbook "run-2".data ⟨none, none⟩).1.risksFile
        = some ⟨"run-2".data, riskItems⟩ ∧
      (main_run egGoodWorkbook "run-1".data egPriorFs).1.tqsFile
        = some ⟨"run-1".data, tqItems⟩ ∧
      (main_run egGoodWorkbook "run-2".data ⟨none, none⟩).1.tqsFile
        = some ⟨"run-2".data, tqItems⟩ :=
  ⟨by decide,
   (claim_C9_deterministic_items egGoodWorkbook "run-1".data "run-2".data
      egPriorFs ⟨none, none⟩).2 (by decide)⟩

end UpdateData
